import Mathlib

/-!
Shallow embedding of the ClickUp MCP wrapper (src/server.js, newest revision):
the `clickup_list_tasks` pipeline — predicate matchers, list classifier,
sorting, merging, limiting and the response envelope.  Upstream HTTP fetches
are modelled as an oracle giving the primary and the invoicing fetch results.
Query parameters arrive as optional strings; JavaScript truthiness of a
string parameter is `qTruthy`.  The `limit` parameter is modelled after
`parseInt` has run (an optional integer; the `parseInt(x || "40")` default
becomes `Option.getD 40`).
-/

namespace ClickupSpec

/-- Character-wise lowercasing, the model of JavaScript `toLowerCase` on the
ASCII data this server compares. -/
def lowerStr (s : String) : String := ⟨s.data.map Char.toLower⟩

/-- `prefAt hay needle` : does `needle` occur at the start of `hay`?
(Model of the anchored step of JavaScript `String.prototype.includes`.) -/
def prefAt : List Char → List Char → Bool
  | _, [] => true
  | [], _ :: _ => false
  | c :: cs, d :: ds => c == d && prefAt cs ds

/-- `hasSub hay needle` : does `needle` occur contiguously inside `hay`? -/
def hasSub : List Char → List Char → Bool
  | [], needle => prefAt [] needle
  | c :: cs, needle => prefAt (c :: cs) needle || hasSub cs needle

/-- Model of JavaScript `hay.includes(needle)`. -/
def containsSub (hay needle : String) : Bool := hasSub hay.data needle.data

/-- JavaScript truthiness of an optional string (query parameter or
environment variable): present and non-empty. -/
def qTruthy : Option String → Bool
  | none => false
  | some s => s != ("")

/-- The value of a ClickUp custom field: absent/null, a plain string, a plain
number, or a structured object exposing optional `label` and `name`
sub-fields (the shapes the server's matchers inspect). -/
inductive CfValue where
  | vnull : CfValue
  | vstr (s : String) : CfValue
  | vnum (n : Int) : CfValue
  | vobj (label : Option String) (nm : Option String) : CfValue
deriving DecidableEq

/-- JavaScript truthiness of a custom-field value. -/
def CfValue.truthy : CfValue → Bool
  | .vnull => false
  | .vstr s => s != ("")
  | .vnum n => n != 0
  | .vobj _ _ => true

/-- JavaScript `toString()` of a custom-field value (only ever applied to a
truthy value in the server code; an object stringifies opaquely). -/
def CfValue.jsToString : CfValue → String
  | .vnull => ("null")
  | .vstr s => s
  | .vnum n => toString n
  | .vobj _ _ => ("[object Object]")

structure CustomField where
  name : Option String
  value : CfValue
deriving DecidableEq

structure TaskList where
  id : String
  name : String
deriving DecidableEq

/-- A task as the server reads it off the upstream JSON: the fields
`clickup_list_tasks` touches.  `date_created` is the creation epoch
timestamp, possibly absent. -/
structure Task where
  id : String
  name : Option String
  url : Option String
  status : Option String
  list : Option TaskList
  text_content : Option String
  custom_fields : List CustomField
  date_created : Option Nat
deriving DecidableEq

/-- `cf.value.label && label.toString().toLowerCase().includes(j)` (and the
same for `cf.value.name`): a truthy structured sub-field containing the
lowercased job number `j`. -/
def optTruthySub (j : String) : Option String → Bool
  | some l => (l != ("")) && containsSub (lowerStr l) j
  | none => false

/-- The `typeof cf.value === "string" || "number"` branch of the job-number
loop (server.js lines 156-159): plain value equal to or containing `j`. -/
def plainValueMatch (j : String) : CfValue → Bool
  | .vstr s => let val := lowerStr s; val == j || containsSub val j
  | .vnum n => let val := lowerStr (toString n); val == j || containsSub val j
  | _ => false

/-- The `cf.value && typeof cf.value === "object"` branch of the job-number
loop (server.js lines 161-164): structured value matching through `label`
or `name`. -/
def objValueMatch (j : String) : CfValue → Bool
  | .vobj lab nmf => optTruthySub j lab || optTruthySub j nmf
  | _ => false

/-- The body of the `for (const cf of cfs)` loop of `matchesJobNumber`
(server.js lines 152-165), for one custom field: skip fields whose name does
not contain "job number"; then the plain branch and the structured branch
in source order.  `j` is the lowercased job number. -/
def jobCfMatch (j : String) (cf : CustomField) : Bool :=
  let nm := lowerStr (cf.name.getD (""))
  if !containsSub nm ("job number") then false
  else plainValueMatch j cf.value || objValueMatch j cf.value

/-- server.js `matchesJobNumber(task, jobNumber)` (lines 144-168): job number
found in the task name, the description (`text_content`), or a custom field
whose name contains "job number" (the loop over custom fields returns on the
first match, i.e. it is `List.any` of `jobCfMatch`). -/
def matchesJobNumber (task : Task) (jobNumber : String) : Bool :=
  if jobNumber == ("") then false
  else
    let j := lowerStr jobNumber
    if containsSub (lowerStr (task.name.getD (""))) j then true
    else if containsSub (lowerStr (task.text_content.getD (""))) j then true
    else task.custom_fields.any (jobCfMatch j)

/-- The local search filter body (server.js lines 250-261); `s` is the
already-lowercased search term.  The custom-field arm stringifies
`cf.value || cf.name || ""` (JavaScript truthiness fall-through). -/
def searchPredicate (s : String) (t : Task) : Bool :=
  let nameMatch := containsSub (lowerStr (t.name.getD (""))) s
  let clientMatch := containsSub (lowerStr (t.text_content.getD (""))) s
  let customMatch := t.custom_fields.any fun cf =>
    let val := lowerStr (if cf.value.truthy then cf.value.jsToString
                         else if qTruthy cf.name then cf.name.getD ("") else (""))
    containsSub val s
  nameMatch || clientMatch || customMatch

/-- The sector filter body (server.js lines 264-273); `s` is the
already-lowercased sector term.  The value side stringifies
`cf.value || ""`. -/
def sectorPredicate (s : String) (t : Task) : Bool :=
  t.custom_fields.any fun cf =>
    let nm := lowerStr (cf.name.getD (""))
    let val := lowerStr (if cf.value.truthy then cf.value.jsToString else (""))
    containsSub nm ("sector") && containsSub val s

/-- `Number(t.date_created || 0)`: the sort key. -/
def createdKey (t : Task) : Nat := t.date_created.getD 0

/-- The order of the comparator `(a, b) => Number(b.date_created||0) -
Number(a.date_created||0)`: `a` may stay before `b` exactly when the
comparator is `≤ 0`. -/
def createdGE (a b : Task) : Prop := createdKey b ≤ createdKey a

instance : DecidableRel createdGE :=
  fun a b => inferInstanceAs (Decidable (createdKey b ≤ createdKey a))

instance : IsTotal Task createdGE :=
  ⟨fun a b => (Nat.le_total (createdKey b) (createdKey a)).imp (fun h => h) (fun h => h)⟩

instance : IsTrans Task createdGE :=
  ⟨fun _ _ _ hab hbc => Nat.le_trans hbc hab⟩

/-- server.js `sortByCreatedDesc` (lines 235-236): a stable sort by creation
timestamp descending.  JavaScript `Array.prototype.sort` is a stable sort
consistent with the comparator, and a stable sort with respect to a total
preorder has a unique result, so the embedding may use any stable sorting
algorithm; `List.insertionSort` is stable and structurally recursive. -/
def sortByCreatedDesc (arr : List Task) : List Task :=
  arr.insertionSort createdGE

/-- The static catalog of active-pipeline list names (server.js 181-187). -/
def ACTIVE_LISTS : List String :=
  [("sales - enquiries & quotations"),
   ("sales - confirmed orders"),
   ("design - work in progress"),
   ("production - work in progress"),
   ("fitting - work in progress")]

/-- `t.list ? t.list.name : ""` -/
def listNameOf (t : Task) : String :=
  match t.list with
  | some l => l.name
  | none => ("")

/-- Process configuration read from environment variables; an unset or empty
variable is falsy. -/
structure Config where
  apiTokenSet : Bool
  workspaceId : Option String
  invoicingListId : Option String
deriving DecidableEq

/-- The query parameters of one `clickup_list_tasks` invocation.  `limit` is
the `parseInt` result when a parseable limit parameter was sent, `none` when
the parameter was absent or empty (then `parseInt(limit || "40")` yields the
default 40). -/
structure Request where
  search : Option String
  list_id : Option String
  sector : Option String
  job_number : Option String
  include_invoicing : Option String
  limit : Option Int
deriving DecidableEq

/-- `req.query.include_invoicing === "true"` (server.js line 178). -/
def includeInvoicing (req : Request) : Bool := req.include_invoicing == some ("true")

/-- `parseInt(req.query.limit || "40", 10)` (server.js line 179). -/
def parsedLimit (req : Request) : Int := req.limit.getD 40

/-- JavaScript `arr.slice(0, endIdx)`: a nonnegative end index takes a
prefix, a negative one counts from the end of the array. -/
def jsSlice (l : List α) (endIdx : Int) : List α :=
  if 0 ≤ endIdx then l.take endIdx.toNat
  else l.take (l.length - endIdx.natAbs)

/-- Result of one upstream fetch: the parsed `tasks` array (`data.tasks ||
[]` folded in) or a non-2xx failure with its status code and body text. -/
inductive FetchResult where
  | ok (tasks : List Task) : FetchResult
  | err (status : Nat) (body : String) : FetchResult
deriving DecidableEq

/-- `invData.tasks` on success, the empty pool when the invoicing fetch
failed (server.js lines 304-307). -/
def fetchedOrEmpty : FetchResult → List Task
  | .ok ts => ts
  | .err _ _ => []

/-- The upstream oracle for one invocation: what the primary fetch and the
invoicing-list fetch would return. -/
structure Upstream where
  primary : FetchResult
  invoicing : FetchResult
deriving DecidableEq

/-- Step "choose starting set" (server.js lines 239-247): with a truthy
`job_number` every fetched task is a candidate, otherwise only tasks whose
lowercased list name is in the active catalog. -/
def activeStart (req : Request) (tasks : List Task) : List Task :=
  if qTruthy req.job_number then tasks
  else tasks.filter fun t => ACTIVE_LISTS.contains (lowerStr (listNameOf t))

/-- The search filter applied when a truthy `search` was sent
(server.js lines 250-261). -/
def applySearch (req : Request) (l : List Task) : List Task :=
  if qTruthy req.search then l.filter (searchPredicate (lowerStr (req.search.getD ("")))) else l

/-- The sector filter applied when a truthy `sector` was sent
(server.js lines 264-273 and 309-318). -/
def applySector (req : Request) (l : List Task) : List Task :=
  if qTruthy req.sector then l.filter (sectorPredicate (lowerStr (req.sector.getD ("")))) else l

/-- The job-number filter applied when a truthy `job_number` was sent
(server.js lines 276-278 and 320-322). -/
def applyJobNumber (req : Request) (l : List Task) : List Task :=
  if qTruthy req.job_number then l.filter (fun t => matchesJobNumber t (req.job_number.getD (""))) else l

/-- The active pool: starting set, then search, sector and job-number
filters, then the descending sort (server.js lines 239-280). -/
def activePool (req : Request) (tasks : List Task) : List Task :=
  sortByCreatedDesc (applyJobNumber req (applySector req (applySearch req (activeStart req tasks))))

/-- The guard of the invoicing fetch and of the merge (server.js lines 284
and 328): `includeInvoicing && CLICKUP_INVOICING_LIST_ID`. -/
def invGuard (cfg : Config) (req : Request) : Bool :=
  includeInvoicing req && qTruthy cfg.invoicingListId

/-- The invoicing pool (server.js lines 283-325): fetched only under the
guard; a fetch failure degrades to the empty pool; then the sector and
job-number filters (the search term is only forwarded upstream, it is not
re-applied locally here) and the descending sort. -/
def invoicingPool (cfg : Config) (req : Request) (fr : FetchResult) : List Task :=
  if invGuard cfg req then
    sortByCreatedDesc (applyJobNumber req (applySector req (fetchedOrEmpty fr)))
  else []

/-- The merge (server.js lines 327-330): active pool followed by the
invoicing pool under the guard, the active pool alone otherwise. -/
def combinedPool (cfg : Config) (req : Request) (tasks : List Task) (fr : FetchResult) : List Task :=
  if invGuard cfg req then activePool req tasks ++ invoicingPool cfg req fr
  else activePool req tasks

/-- The projection of a task into a result item (server.js lines 334-342). -/
structure Item where
  id : String
  name : Option String
  url : Option String
  status : Option String
  list : Option String
  custom_fields : List CustomField
  date_created : Option Nat
deriving DecidableEq

def shapeItem (t : Task) : Item :=
  { id := t.id, name := t.name, url := t.url, status := t.status,
    list := t.list.map TaskList.name,
    custom_fields := t.custom_fields,
    date_created := t.date_created }

/-- The success response body (server.js lines 344-350). -/
structure Envelope where
  items : List Item
  total_returned : Nat
  active_count : Nat
  invoicing_count : Nat
  invoicing_included : Bool
deriving DecidableEq

/-- A response of the tool: an error with status code, error string and
optional details, or the success envelope. -/
inductive Response where
  | fail (status : Nat) (error : String) (details : Option String) : Response
  | ok (env : Envelope) : Response
deriving DecidableEq

/-- Assembling the success envelope from the fetched primary tasks and the
invoicing fetch result (server.js lines 239-350). -/
def mkEnvelope (cfg : Config) (req : Request) (tasks : List Task) (fr : FetchResult) : Envelope :=
  let active := activePool req tasks
  let invoicing := invoicingPool cfg req fr
  let combined := combinedPool cfg req tasks fr
  let items := (jsSlice combined (parsedLimit req)).map shapeItem
  { items := items, total_returned := items.length,
    active_count := active.length, invoicing_count := invoicing.length,
    invoicing_included := includeInvoicing req }

/-- The `clickup_list_tasks` handler (server.js lines 171-355): the
configuration checks in source order (the workspace id is only required when
no `list_id` was sent), then the primary fetch — a failure propagates the
upstream status code and body — then the local pipeline and the envelope. -/
def clickup_list_tasks (cfg : Config) (req : Request) (up : Upstream) : Response :=
  if !cfg.apiTokenSet then .fail 500 ("CLICKUP_API_TOKEN not set") none
  else if !qTruthy req.list_id && !qTruthy cfg.workspaceId then
    .fail 500 ("CLICKUP_WORKSPACE_ID not set") none
  else
    match up.primary with
    | .err s body => .fail s ("ClickUp error") (some body)
    | .ok tasks => .ok (mkEnvelope cfg req tasks up.invoicing)

/-! ### Helper lemmas about the string primitives -/

theorem prefAt_refl : ∀ l : List Char, prefAt l l = true
  | [] => rfl
  | c :: cs => by simp [prefAt, prefAt_refl cs]

theorem containsSub_refl (s : String) : containsSub s s = true := by
  cases s with
  | mk l =>
    cases l with
    | nil => rfl
    | cons c cs => simp [containsSub, hasSub, prefAt_refl]

/-- JavaScript's `val === j || val.includes(j)` collapses to containment. -/
theorem beq_or_contains (a b : String) : ((a == b) || containsSub a b) = containsSub a b := by
  cases h : a == b with
  | false => simp
  | true =>
    have hab : a = b := beq_iff_eq.mp h
    subst hab
    simp [containsSub_refl]

theorem containsSub_empty_left {j : String} (h : j ≠ ("")) : containsSub ("") j = false := by
  cases j with
  | mk l =>
    cases l with
    | nil => exact absurd rfl h
    | cons c cs => rfl

theorem lowerStr_empty : lowerStr ("") = ("") := rfl

theorem lowerStr_ne_empty {s : String} (h : s ≠ ("")) : lowerStr s ≠ ("") := by
  cases s with
  | mk l =>
    cases l with
    | nil => exact absurd rfl h
    | cons c cs =>
      intro hc
      have hd : (lowerStr ⟨c :: cs⟩).data = ("" : String).data := by rw [hc]
      simp [lowerStr] at hd

theorem beq_empty_left_eq_false {j : String} (h : j ≠ ("")) : (("" : String) == j) = false := by
  cases hb : (("" : String) == j) with
  | false => rfl
  | true => exact absurd (beq_iff_eq.mp hb).symm h

/-- `if (x) y else ""` on an optional string equals `getD ""`. -/
theorem nameFallback_eq (o : Option String) :
    (if qTruthy o then o.getD ("") else ("")) = o.getD ("") := by
  cases o with
  | none => rfl
  | some s =>
    by_cases h : s = ("")
    · subst h; rfl
    · have hb : (s != ("")) = true := bne_iff_ne.mpr h
      simp [qTruthy, hb]

/-! ### Helper lemmas about the pools -/

theorem mem_of_mem_applySearch {req : Request} {l : List Task} {t : Task}
    (h : t ∈ applySearch req l) : t ∈ l := by
  unfold applySearch at h
  split at h
  · exact (List.mem_filter.mp h).1
  · exact h

theorem mem_of_mem_applySector {req : Request} {l : List Task} {t : Task}
    (h : t ∈ applySector req l) : t ∈ l := by
  unfold applySector at h
  split at h
  · exact (List.mem_filter.mp h).1
  · exact h

theorem mem_of_mem_applyJobNumber {req : Request} {l : List Task} {t : Task}
    (h : t ∈ applyJobNumber req l) : t ∈ l := by
  unfold applyJobNumber at h
  split at h
  · exact (List.mem_filter.mp h).1
  · exact h

theorem mem_of_mem_sortByCreatedDesc {l : List Task} {t : Task}
    (h : t ∈ sortByCreatedDesc l) : t ∈ l :=
  (List.mem_insertionSort createdGE).mp h

theorem applySearch_nil (req : Request) : applySearch req [] = [] := by
  unfold applySearch; split <;> rfl

theorem applySector_nil (req : Request) : applySector req [] = [] := by
  unfold applySector; split <;> rfl

theorem applyJobNumber_nil (req : Request) : applyJobNumber req [] = [] := by
  unfold applyJobNumber; split <;> rfl

theorem sortByCreatedDesc_nil : sortByCreatedDesc [] = [] := rfl

/-- A failed invoicing fetch yields the empty invoicing pool. -/
theorem invoicingPool_err (cfg : Config) (req : Request) (s : Nat) (b : String) :
    invoicingPool cfg req (.err s b) = [] := by
  unfold invoicingPool
  split
  · rw [show fetchedOrEmpty (.err s b) = [] from rfl,
        applySector_nil, applyJobNumber_nil, sortByCreatedDesc_nil]
  · rfl

/-- With a false merge guard the merged pool is the active pool alone. -/
theorem combinedPool_of_guard_false {cfg : Config} {req : Request}
    (h : invGuard cfg req = false) (tasks : List Task) (fr : FetchResult) :
    combinedPool cfg req tasks fr = activePool req tasks := by
  unfold combinedPool
  rw [h]
  rfl

theorem invoicingPool_of_guard_false {cfg : Config} {req : Request}
    (h : invGuard cfg req = false) (fr : FetchResult) :
    invoicingPool cfg req fr = [] := by
  unfold invoicingPool
  rw [h]
  rfl

/-! ### Inversion of the handler -/

theorem listTasks_ok_inv {cfg : Config} {req : Request} {up : Upstream} {env : Envelope}
    (h : clickup_list_tasks cfg req up = .ok env) :
    ∃ tasks, up.primary = .ok tasks ∧ env = mkEnvelope cfg req tasks up.invoicing := by
  unfold clickup_list_tasks at h
  split at h
  · cases h
  · split at h
    · cases h
    · cases hp : up.primary with
      | err s b => rw [hp] at h; cases h
      | ok tasks =>
        rw [hp] at h
        cases h
        exact ⟨tasks, rfl, rfl⟩

theorem listTasks_ok_eq {cfg : Config} {req : Request} {up : Upstream} {tasks : List Task}
    (htok : cfg.apiTokenSet = true)
    (hws : qTruthy req.list_id = true ∨ qTruthy cfg.workspaceId = true)
    (hp : up.primary = .ok tasks) :
    clickup_list_tasks cfg req up = .ok (mkEnvelope cfg req tasks up.invoicing) := by
  unfold clickup_list_tasks
  rw [hp]
  have h1 : (!cfg.apiTokenSet) = false := by simp [htok]
  have h2 : (!qTruthy req.list_id && !qTruthy cfg.workspaceId) = false := by
    rcases hws with h | h <;> simp [h]
  simp [h1, h2]

theorem any_congr_mem {α : Type} {p q : α → Bool} :
    ∀ {l : List α}, (∀ a ∈ l, p a = q a) → l.any p = l.any q
  | [], _ => rfl
  | a :: l, h => by
    simp only [List.any_cons]
    rw [h a (List.mem_cons_self a l), any_congr_mem fun b hb => h b (List.mem_cons_of_mem a hb)]

/-! ### Claim C3: the job-number matcher -/

/-- Modelled from the claim wording, for comparison with `matchesJobNumber`:
the custom-field value is normalized — a structured value to its `label` or
`name` sub-field, a plain value to its string form, a missing sub-field or
value to the empty string — and then compared to the lowercased job number
`j` by equality or containment. -/
def specJobValueMatch (j : String) : CfValue → Bool
  | .vnull => (lowerStr ("") == j) || containsSub (lowerStr ("")) j
  | .vstr s => (lowerStr s == j) || containsSub (lowerStr s) j
  | .vnum n => (lowerStr (toString n) == j) || containsSub (lowerStr (toString n)) j
  | .vobj lab nmf =>
      ((lowerStr (lab.getD ("")) == j) || containsSub (lowerStr (lab.getD (""))) j)
      || ((lowerStr (nmf.getD ("")) == j) || containsSub (lowerStr (nmf.getD (""))) j)

theorem optTruthySub_eq {j : String} (hj : j ≠ ("")) (o : Option String) :
    optTruthySub j o
    = ((lowerStr (o.getD ("")) == j) || containsSub (lowerStr (o.getD (""))) j) := by
  cases o with
  | none =>
    simp only [optTruthySub, Option.getD_none, lowerStr_empty]
    rw [beq_empty_left_eq_false hj, containsSub_empty_left hj]
    rfl
  | some l =>
    by_cases hl : l = ("")
    · subst hl
      simp only [optTruthySub, Option.getD_some, lowerStr_empty]
      rw [beq_empty_left_eq_false hj, containsSub_empty_left hj]
      simp
    · have hb : (l != ("")) = true := bne_iff_ne.mpr hl
      simp only [optTruthySub, Option.getD_some, hb, Bool.true_and]
      rw [beq_or_contains]

theorem jobCfMatch_eq {j : String} (hj : j ≠ ("")) (cf : CustomField) :
    jobCfMatch j cf =
      (containsSub (lowerStr (cf.name.getD (""))) ("job number")
       && specJobValueMatch j cf.value) := by
  unfold jobCfMatch
  cases hnm : containsSub (lowerStr (cf.name.getD (""))) ("job number") with
  | false => simp [hnm]
  | true =>
    simp only [hnm, Bool.not_true, Bool.false_eq_true, if_false, Bool.true_and]
    cases cf.value with
    | vnull =>
      simp only [plainValueMatch, objValueMatch, specJobValueMatch, lowerStr_empty]
      rw [beq_empty_left_eq_false hj, containsSub_empty_left hj]
    | vstr s => simp [plainValueMatch, objValueMatch, specJobValueMatch]
    | vnum n => simp [plainValueMatch, objValueMatch, specJobValueMatch]
    | vobj lab nmf =>
      simp only [plainValueMatch, objValueMatch, specJobValueMatch, Bool.false_or]
      rw [optTruthySub_eq hj lab, optTruthySub_eq hj nmf]

theorem matchesJobNumber_eq (t : Task) (j : String) (hj : j ≠ ("")) :
    matchesJobNumber t j =
      (containsSub (lowerStr (t.name.getD (""))) (lowerStr j)
       || containsSub (lowerStr (t.text_content.getD (""))) (lowerStr j)
       || t.custom_fields.any fun cf =>
            containsSub (lowerStr (cf.name.getD (""))) ("job number")
            && specJobValueMatch (lowerStr j) cf.value) := by
  have hbeq : (j == ("")) = false := beq_eq_false_iff_ne.mpr hj
  have hj2 : lowerStr j ≠ ("") := lowerStr_ne_empty hj
  unfold matchesJobNumber
  simp only [hbeq, Bool.false_eq_true, if_false]
  rw [any_congr_mem fun cf _ => jobCfMatch_eq hj2 cf]
  cases h1 : containsSub (lowerStr (t.name.getD (""))) (lowerStr j) <;>
    cases h2 : containsSub (lowerStr (t.text_content.getD (""))) (lowerStr j) <;>
      simp [h1, h2]

/-- C3: for every task and non-empty job-number string, `matchesJobNumber`
returns true iff the lowercased job number is a substring of the task name,
or of the description field, or some custom field whose name contains
"job number" (case-insensitively) has a value that — normalized from a
structured value to its label or name sub-field, or from a plain value to
its string form, missing pieces becoming empty strings — equals or contains
the job number case-insensitively. -/
theorem C3_job_matcher (t : Task) (j : String) (hj : j ≠ ("")) :
    matchesJobNumber t j = true ↔
      (containsSub (lowerStr (t.name.getD (""))) (lowerStr j) = true
       ∨ containsSub (lowerStr (t.text_content.getD (""))) (lowerStr j) = true
       ∨ ∃ cf ∈ t.custom_fields,
           containsSub (lowerStr (cf.name.getD (""))) ("job number") = true
           ∧ specJobValueMatch (lowerStr j) cf.value = true) := by
  rw [matchesJobNumber_eq t j hj]
  simp [List.any_eq_true, or_assoc]

def taskC3w : Task :=
  { id := ("t3"), name := none, url := none, status := none, list := none,
    text_content := none,
    custom_fields := [{ name := some ("Job Number"), value := .vobj (some ("JN-4821")) none }],
    date_created := none }

/-- Witness for C3 at a concrete input: the structured custom-field value
matches job number "4821". -/
theorem C3_job_matcher_witness :
    ("4821" : String) ≠ ("") ∧ matchesJobNumber taskC3w ("4821") = true :=
  ⟨by decide,
   (C3_job_matcher taskC3w ("4821") (by decide)).mpr
     (Or.inr (Or.inr ⟨{ name := some ("Job Number"), value := .vobj (some ("JN-4821")) none },
       by decide, by decide, by decide⟩))⟩

/-! ### Claim C4: the list classifier -/

/-- C4: whenever `job_number` is absent, a task enters the active starting
pool iff its lowercased owning-list name is exactly one of the five entries
of the static active-list catalog; every other task is excluded. -/
theorem C4_classifier (req : Request) (tasks : List Task) (t : Task)
    (hjob : qTruthy req.job_number = false) :
    t ∈ activeStart req tasks ↔
      t ∈ tasks ∧ lowerStr (listNameOf t) ∈
        [("sales - enquiries & quotations"), ("sales - confirmed orders"),
         ("design - work in progress"), ("production - work in progress"),
         ("fitting - work in progress")] := by
  unfold activeStart
  rw [hjob]
  simp only [Bool.false_eq_true, if_false, List.mem_filter, ACTIVE_LISTS]
  simp [List.contains, List.elem_iff]

def taskC4w : Task :=
  { id := ("t4"), name := some ("Wardrobe"), url := none, status := none,
    list := some { id := ("l4"), name := ("DESIGN - Work in progress") },
    text_content := none, custom_fields := [], date_created := some 5 }

def reqC4w : Request :=
  { search := none, list_id := none, sector := none, job_number := none,
    include_invoicing := none, limit := none }

/-- Witness for C4 at a concrete input: a task in a catalog list (compared
case-insensitively) is classified active. -/
theorem C4_classifier_witness :
    qTruthy reqC4w.job_number = false ∧ taskC4w ∈ activeStart reqC4w [taskC4w] :=
  ⟨by decide,
   (C4_classifier reqC4w [taskC4w] taskC4w (by decide)).mpr ⟨by decide, by decide⟩⟩

/-! ### Claim C7: the search matcher -/

/-- Modelled from the claim wording, for comparison with `searchPredicate`:
the custom-field arm uses the string form of the field's value and falls
back to the field's name ONLY when the value is absent. -/
def specSearchMatch (t : Task) (term : String) : Bool :=
  let s := lowerStr term
  containsSub (lowerStr (t.name.getD (""))) s
  || containsSub (lowerStr (t.text_content.getD (""))) s
  || t.custom_fields.any fun cf =>
       containsSub (lowerStr (match cf.value with
         | .vnull => cf.name.getD ("")
         | w => w.jsToString)) s

def taskC7x : Task :=
  { id := ("t7"), name := none, url := none, status := none, list := none,
    text_content := none,
    custom_fields := [{ name := some ("Sector"), value := .vstr ("") }],
    date_created := none }

/-- C7 counterexample: for the task whose only custom field is named
"Sector" with the PRESENT empty-string value, and the non-empty search term
"sector", the code's matcher returns true (JavaScript `cf.value || cf.name`
falls through on the falsy empty string and matches the field NAME), while
the claim's reading — fall back to the name only when the value is absent —
says false.  The claimed equivalence fails at this input. -/
theorem C7_counterexample :
    searchPredicate (lowerStr ("sector")) taskC7x = true
    ∧ specSearchMatch taskC7x ("sector") = false
    ∧ ("sector" : String) ≠ ("") :=
  ⟨by decide, by decide, by decide⟩

theorem searchPredicate_eq (s : String) (t : Task) :
    searchPredicate s t =
      (containsSub (lowerStr (t.name.getD (""))) s
       || containsSub (lowerStr (t.text_content.getD (""))) s
       || t.custom_fields.any fun cf =>
            containsSub (lowerStr (if cf.value.truthy then cf.value.jsToString
                                   else cf.name.getD (""))) s) := by
  unfold searchPredicate
  have hq := any_congr_mem
    (p := fun cf : CustomField =>
      containsSub (lowerStr (if cf.value.truthy then cf.value.jsToString
                             else if qTruthy cf.name then cf.name.getD ("") else (""))) s)
    (q := fun cf : CustomField =>
      containsSub (lowerStr (if cf.value.truthy then cf.value.jsToString
                             else cf.name.getD (""))) s)
    (l := t.custom_fields)
    (fun cf _ => by simp only [nameFallback_eq])
  rw [hq]

/-- C7 amended: the search matcher is a case-insensitive substring test
against the task name, the description field, or the string form of a
custom field's value, falling back to the field's name whenever the value
is absent OR otherwise falsy (empty string, zero); missing fields are
empty strings. -/
theorem C7_amended (t : Task) (term : String) (_h : term ≠ ("")) :
    searchPredicate (lowerStr term) t = true ↔
      (containsSub (lowerStr (t.name.getD (""))) (lowerStr term) = true
       ∨ containsSub (lowerStr (t.text_content.getD (""))) (lowerStr term) = true
       ∨ ∃ cf ∈ t.custom_fields,
           containsSub (lowerStr (if cf.value.truthy then cf.value.jsToString
                                  else cf.name.getD (""))) (lowerStr term) = true) := by
  rw [searchPredicate_eq]
  simp [List.any_eq_true, or_assoc]

def taskC7w : Task :=
  { id := ("t7w"), name := some ("Blue Kitchen"), url := none, status := none,
    list := none, text_content := none, custom_fields := [], date_created := none }

/-- Witness for the amended C7 at a concrete input. -/
theorem C7_amended_witness :
    ("kitchen" : String) ≠ ("") ∧ searchPredicate (lowerStr ("kitchen")) taskC7w = true :=
  ⟨by decide, (C7_amended taskC7w ("kitchen") (by decide)).mpr (Or.inl (by decide))⟩

/-! ### Claim C6: sorting within a pool -/

def taskC6m : Task :=
  { id := ("c6m"), name := none, url := none, status := none, list := none,
    text_content := none, custom_fields := [], date_created := none }

def taskC6z : Task :=
  { id := ("c6z"), name := none, url := none, status := none, list := none,
    text_content := none, custom_fields := [], date_created := some 0 }

/-- C6 counterexample: a missing creation timestamp is treated as the key 0,
which TIES with a present timestamp of 0; the sort is stable, so the
missing-timestamp task stays BEFORE the present-timestamp task — it does not
sort after all present timestamps. -/
theorem C6_counterexample :
    sortByCreatedDesc [taskC6m, taskC6z] = [taskC6m, taskC6z]
    ∧ taskC6m.date_created = none
    ∧ taskC6z.date_created = some 0 :=
  ⟨by decide, rfl, rfl⟩

theorem sortByCreatedDesc_sorted (l : List Task) :
    (sortByCreatedDesc l).Pairwise createdGE :=
  List.sorted_insertionSort createdGE l

/-- C6 amended: within a pool, any item with the strictly larger creation
key appears before any item with a smaller one; a missing timestamp is
treated as numeric 0 (hence it sorts after every present NONZERO timestamp);
items with equal keys — including a missing timestamp tying with a present
zero — keep their original upstream order (stability). -/
theorem C6_amended (l : List Task) :
    (∀ i j : Fin (sortByCreatedDesc l).length,
       createdKey ((sortByCreatedDesc l).get j) < createdKey ((sortByCreatedDesc l).get i) →
       (i : Nat) < (j : Nat))
    ∧ (∀ t : Task, t.date_created = none → createdKey t = 0)
    ∧ (∀ a b : Task, createdKey a = createdKey b → [a, b].Sublist l →
         [a, b].Sublist (sortByCreatedDesc l))
    ∧ (∀ i j : Fin (sortByCreatedDesc l).length,
         ((sortByCreatedDesc l).get i).date_created = none →
         0 < createdKey ((sortByCreatedDesc l).get j) →
         (j : Nat) < (i : Nat)) := by
  have hs := List.pairwise_iff_get.mp (sortByCreatedDesc_sorted l)
  have part1 : ∀ i j : Fin (sortByCreatedDesc l).length,
      createdKey ((sortByCreatedDesc l).get j) < createdKey ((sortByCreatedDesc l).get i) →
      (i : Nat) < (j : Nat) := by
    intro i j hlt
    rcases lt_trichotomy ((i : Nat)) ((j : Nat)) with h | h | h
    · exact h
    · exfalso; cases Fin.ext h; exact lt_irrefl _ hlt
    · exfalso
      have hc := hs j i (Fin.lt_def.mpr h)
      exact absurd
        (show createdKey ((sortByCreatedDesc l).get i) ≤
              createdKey ((sortByCreatedDesc l).get j) from hc)
        (not_le.mpr hlt)
  refine ⟨part1, ?_, ?_, ?_⟩
  · intro t ht; simp [createdKey, ht]
  · intro a b hk hsub
    exact List.pair_sublist_insertionSort (show createdGE a b from hk.ge) hsub
  · intro i j hnone hpos
    apply part1
    have h0 : createdKey ((sortByCreatedDesc l).get i) = 0 := by
      unfold createdKey
      rw [hnone]
      rfl
    rw [h0]
    exact hpos

def taskC6a : Task :=
  { id := ("c6a"), name := none, url := none, status := none, list := none,
    text_content := none, custom_fields := [], date_created := some 5 }

def taskC6b : Task :=
  { id := ("c6b"), name := none, url := none, status := none, list := none,
    text_content := none, custom_fields := [], date_created := some 5 }

/-- Witness for the amended C6 at a concrete input: two equal-key items keep
their original relative order. -/
theorem C6_amended_witness :
    createdKey taskC6a = createdKey taskC6b
    ∧ [taskC6a, taskC6b].Sublist (sortByCreatedDesc [taskC6a, taskC6b]) :=
  ⟨rfl, (C6_amended [taskC6a, taskC6b]).2.2.1 taskC6a taskC6b rfl (List.Sublist.refl _)⟩

/-! ### Claim C1: include_invoicing=false and the invoicing list -/

theorem jsSlice_subset (l : List α) (e : Int) : jsSlice l e ⊆ l := by
  unfold jsSlice
  split
  · exact List.take_subset _ _
  · exact List.take_subset _ _

def taskC1 : Task :=
  { id := ("t1"), name := some ("Kitchen Job 4821"), url := none, status := none,
    list := some { id := ("inv1"), name := ("Invoicing") },
    text_content := none, custom_fields := [], date_created := some 100 }

def cfgC1 : Config :=
  { apiTokenSet := true, workspaceId := some ("ws"), invoicingListId := some ("inv1") }

def reqC1 : Request :=
  { search := none, list_id := none, sector := none, job_number := some ("4821"),
    include_invoicing := some ("false"), limit := none }

def upC1 : Upstream := { primary := .ok [taskC1], invoicing := .ok [] }

/-- C1 counterexample: with include_invoicing=false but job_number supplied,
the catalog classification is bypassed, so a task owned by the configured
invoicing list (id "inv1", named "Invoicing") that matches the job-number
filter IS returned — the returned item carries the invoicing list. -/
theorem C1_counterexample :
    clickup_list_tasks cfgC1 reqC1 upC1 =
      .ok { items := [shapeItem taskC1], total_returned := 1, active_count := 1,
            invoicing_count := 0, invoicing_included := false }
    ∧ taskC1.list = some { id := ("inv1"), name := ("Invoicing") }
    ∧ cfgC1.invoicingListId = some ("inv1")
    ∧ reqC1.include_invoicing = some ("false")
    ∧ (shapeItem taskC1).list = some ("Invoicing") :=
  ⟨by decide, rfl, rfl, rfl, rfl⟩

/-- C1 amended: with include_invoicing=false AND no job_number supplied,
provided the invoicing list is not named (case-insensitively) like one of
the five active-catalog entries, no returned item's owning list is the
invoicing list (indeed every returned item's list is in the catalog). -/
theorem C1_amended (cfg : Config) (req : Request) (up : Upstream) (env : Envelope)
    (invName : String)
    (hjob : qTruthy req.job_number = false)
    (hinc : includeInvoicing req = false)
    (hname : ACTIVE_LISTS.contains (lowerStr invName) = false)
    (hok : clickup_list_tasks cfg req up = .ok env) :
    env.items.all (fun it => it.list != some invName) = true := by
  obtain ⟨tasks, hp, henv⟩ := listTasks_ok_inv hok
  subst henv
  rw [List.all_eq_true]
  intro it hit
  simp only [mkEnvelope] at hit
  obtain ⟨t, ht, rfl⟩ := List.mem_map.mp hit
  have hguard : invGuard cfg req = false := by simp [invGuard, hinc]
  rw [combinedPool_of_guard_false hguard] at ht
  have ht2 : t ∈ activePool req tasks := jsSlice_subset _ _ ht
  have ht3 : t ∈ activeStart req tasks :=
    mem_of_mem_applySearch
      (mem_of_mem_applySector
        (mem_of_mem_applyJobNumber (mem_of_mem_sortByCreatedDesc ht2)))
  unfold activeStart at ht3
  rw [hjob] at ht3
  simp only [Bool.false_eq_true, if_false] at ht3
  have hcat := (List.mem_filter.mp ht3).2
  rw [bne_iff_ne]
  intro heq
  have hln : listNameOf t = invName := by
    cases hl : t.list with
    | none => simp [shapeItem, hl] at heq
    | some L =>
      have hLname : L.name = invName := by simpa [shapeItem, hl] using heq
      unfold listNameOf
      rw [hl]
      exact hLname
  rw [hln] at hcat
  rw [hcat] at hname
  cases hname

def taskC1w : Task :=
  { id := ("w1"), name := some ("Oak desk"), url := none, status := none,
    list := some { id := ("l1"), name := ("DESIGN - Work in progress") },
    text_content := none, custom_fields := [], date_created := some 7 }

def cfgC1w : Config :=
  { apiTokenSet := true, workspaceId := some ("ws"), invoicingListId := some ("inv1") }

def reqC1w : Request :=
  { search := none, list_id := none, sector := none, job_number := none,
    include_invoicing := some ("false"), limit := none }

def upC1w : Upstream := { primary := .ok [taskC1w], invoicing := .ok [] }

def envC1w : Envelope :=
  { items := [shapeItem taskC1w], total_returned := 1, active_count := 1,
    invoicing_count := 0, invoicing_included := false }

/-- Witness for the amended C1 at a concrete input. -/
theorem C1_amended_witness :
    (qTruthy reqC1w.job_number = false ∧ includeInvoicing reqC1w = false
     ∧ ACTIVE_LISTS.contains (lowerStr ("Invoicing")) = false
     ∧ clickup_list_tasks cfgC1w reqC1w upC1w = .ok envC1w)
    ∧ envC1w.items.all (fun it => it.list != some ("Invoicing")) = true :=
  ⟨⟨by decide, by decide, by decide, by decide⟩,
   C1_amended cfgC1w reqC1w upC1w envC1w ("Invoicing")
     (by decide) (by decide) (by decide) (by decide)⟩

/-! ### Claim C2: does job_number trigger the invoicing fetch? -/

def taskC2 : Task :=
  { id := ("x2"), name := some ("Fitted wardrobe 4821"), url := none, status := none,
    list := some { id := ("inv1"), name := ("Invoicing") },
    text_content := none, custom_fields := [], date_created := some 50 }

def cfgC2 : Config :=
  { apiTokenSet := true, workspaceId := some ("ws"), invoicingListId := some ("inv1") }

def reqC2 : Request :=
  { search := none, list_id := none, sector := none, job_number := some ("4821"),
    include_invoicing := none, limit := none }

def upC2 : Upstream := { primary := .ok [], invoicing := .ok [taskC2] }

/-- C2 counterexample: job_number is present and an invoicing source is
configured, and the invoicing source holds a task matching the job number;
yet because include_invoicing is not the string "true" the code never takes
the invoicing branch (server.js line 284 requires `includeInvoicing`):
the result is empty and invoicing_count = 0 — the filtered invoicing pool
is NOT included. -/
theorem C2_counterexample :
    clickup_list_tasks cfgC2 reqC2 upC2 =
      .ok { items := [], total_returned := 0, active_count := 0,
            invoicing_count := 0, invoicing_included := false }
    ∧ reqC2.job_number = some ("4821")
    ∧ cfgC2.invoicingListId = some ("inv1")
    ∧ reqC2.include_invoicing = none
    ∧ upC2.invoicing = .ok [taskC2]
    ∧ matchesJobNumber taskC2 ("4821") = true :=
  ⟨by decide, rfl, rfl, rfl, rfl, by decide⟩

theorem jsSlice_eq_take (l : List α) (e : Int) : ∃ k : Nat, jsSlice l e = l.take k := by
  unfold jsSlice
  split
  · exact ⟨e.toNat, rfl⟩
  · exact ⟨l.length - e.natAbs, rfl⟩

theorem combinedPool_of_guard_true {cfg : Config} {req : Request}
    (h : invGuard cfg req = true) (tasks : List Task) (fr : FetchResult) :
    combinedPool cfg req tasks fr = activePool req tasks ++ invoicingPool cfg req fr := by
  unfold combinedPool
  rw [h]
  rfl

theorem invoicingPool_of_guard_true {cfg : Config} {req : Request}
    (h : invGuard cfg req = true) (fr : FetchResult) :
    invoicingPool cfg req fr =
      sortByCreatedDesc (applyJobNumber req (applySector req (fetchedOrEmpty fr))) := by
  unfold invoicingPool
  rw [h]
  rfl

theorem take_eq_take_own_length (l : List α) (k : Nat) :
    l.take k = l.take (l.take k).length := by
  rw [List.length_take]
  rcases le_total k l.length with h | h
  · rw [min_eq_left h]
  · rw [min_eq_right h, List.take_of_length_le h, List.take_length]

/-- C2 amended: the invoicing fetch result enters the pipeline exactly when
include_invoicing is the literal string "true" AND an invoicing list id is
configured — a job_number alone never triggers it; when it does, the sector
and job-number local filters are applied to it (the search term is only
forwarded upstream, not re-applied locally), it is sorted descending, and
the response items are drawn from the active pool followed by this filtered
invoicing pool; under any other request the invoicing pool is empty and the
items are drawn from the active pool alone. -/
theorem C2_amended (cfg : Config) (req : Request) (up : Upstream) (env : Envelope)
    (tasks : List Task)
    (hp : up.primary = .ok tasks)
    (hok : clickup_list_tasks cfg req up = .ok env) :
    (invGuard cfg req =
       ((req.include_invoicing == some ("true")) && qTruthy cfg.invoicingListId))
    ∧ (invGuard cfg req = true →
         env.invoicing_count =
           (sortByCreatedDesc (applyJobNumber req (applySector req
             (fetchedOrEmpty up.invoicing)))).length
         ∧ env.items =
             ((activePool req tasks ++
               sortByCreatedDesc (applyJobNumber req (applySector req
                 (fetchedOrEmpty up.invoicing)))).map shapeItem).take env.total_returned)
    ∧ (invGuard cfg req = false →
         env.invoicing_count = 0
         ∧ env.items = ((activePool req tasks).map shapeItem).take env.total_returned) := by
  obtain ⟨tasks2, hp2, henv⟩ := listTasks_ok_inv hok
  rw [hp] at hp2
  cases hp2
  subst henv
  refine ⟨rfl, ?_, ?_⟩
  · intro hg
    constructor
    · show (invoicingPool cfg req up.invoicing).length = _
      rw [invoicingPool_of_guard_true hg]
    · simp only [mkEnvelope]
      rw [combinedPool_of_guard_true hg, invoicingPool_of_guard_true hg]
      obtain ⟨k, hk⟩ :=
        jsSlice_eq_take (activePool req tasks ++
          sortByCreatedDesc (applyJobNumber req (applySector req
            (fetchedOrEmpty up.invoicing)))) (parsedLimit req)
      rw [hk, List.map_take]
      exact take_eq_take_own_length _ k
  · intro hg
    constructor
    · show (invoicingPool cfg req up.invoicing).length = 0
      rw [invoicingPool_of_guard_false hg]
      rfl
    · simp only [mkEnvelope]
      rw [combinedPool_of_guard_false hg]
      obtain ⟨k, hk⟩ := jsSlice_eq_take (activePool req tasks) (parsedLimit req)
      rw [hk, List.map_take]
      exact take_eq_take_own_length _ k

def reqC2w : Request :=
  { search := none, list_id := none, sector := none, job_number := some ("4821"),
    include_invoicing := some ("true"), limit := none }

def upC2w : Upstream := { primary := .ok [], invoicing := .ok [taskC2] }

def envC2w : Envelope :=
  { items := [shapeItem taskC2], total_returned := 1, active_count := 0,
    invoicing_count := 1, invoicing_included := true }

/-- Witness for the amended C2 at a concrete input: with
include_invoicing="true" and a configured invoicing list, the job-number
filtered invoicing pool is merged in. -/
theorem C2_amended_witness :
    (upC2w.primary = .ok ([] : List Task)
     ∧ clickup_list_tasks cfgC2 reqC2w upC2w = .ok envC2w
     ∧ invGuard cfgC2 reqC2w = true)
    ∧ envC2w.invoicing_count =
        (sortByCreatedDesc (applyJobNumber reqC2w (applySector reqC2w
          (fetchedOrEmpty upC2w.invoicing)))).length :=
  ⟨⟨by decide, by decide, by decide⟩,
   ((C2_amended cfgC2 reqC2w upC2w envC2w [] (by decide) (by decide)).2.1 (by decide)).1⟩

/-! ### Claim C5: the limit -/

/-- C5: given limit=N (positive), at most N items come back and
total_returned equals items.length; an unspecified limit defaults to 40;
truncation is a prefix of the merged pool (order preserved). -/
theorem C5_limit (cfg : Config) (req : Request) (up : Upstream) (env : Envelope)
    (tasks : List Task)
    (hp : up.primary = .ok tasks)
    (hok : clickup_list_tasks cfg req up = .ok env) :
    env.total_returned = env.items.length
    ∧ (∀ N : Nat, 0 < N → req.limit = some ((N : Int)) → env.items.length ≤ N)
    ∧ (req.limit = none → parsedLimit req = 40 ∧ env.items.length ≤ 40)
    ∧ ∃ k : Nat, env.items = ((combinedPool cfg req tasks up.invoicing).map shapeItem).take k := by
  obtain ⟨tasks2, hp2, henv⟩ := listTasks_ok_inv hok
  rw [hp] at hp2
  cases hp2
  subst henv
  refine ⟨rfl, ?_, ?_, ?_⟩
  · intro N _hN hlim
    have hpl : parsedLimit req = ((N : Int)) := by simp [parsedLimit, hlim]
    simp only [mkEnvelope, List.length_map]
    rw [hpl]
    unfold jsSlice
    rw [if_pos (Int.natCast_nonneg N), Int.toNat_natCast, List.length_take]
    exact min_le_left _ _
  · intro hnone
    have hpl : parsedLimit req = (40 : Int) := by simp [parsedLimit, hnone]
    refine ⟨hpl, ?_⟩
    simp only [mkEnvelope, List.length_map]
    rw [hpl]
    unfold jsSlice
    rw [if_pos (by decide : (0 : Int) ≤ 40)]
    rw [show ((40 : Int)).toNat = 40 from rfl, List.length_take]
    exact min_le_left _ _
  · obtain ⟨k, hk⟩ := jsSlice_eq_take (combinedPool cfg req tasks up.invoicing) (parsedLimit req)
    refine ⟨k, ?_⟩
    simp only [mkEnvelope]
    rw [hk, List.map_take]

def taskC5a : Task :=
  { id := ("c5a"), name := some ("Desk"), url := none, status := none,
    list := some { id := ("l5"), name := ("SALES - Confirmed Orders") },
    text_content := none, custom_fields := [], date_created := some 10 }

def taskC5b : Task :=
  { id := ("c5b"), name := some ("Table"), url := none, status := none,
    list := some { id := ("l5"), name := ("SALES - Confirmed Orders") },
    text_content := none, custom_fields := [], date_created := some 20 }

def cfgC5w : Config :=
  { apiTokenSet := true, workspaceId := some ("ws"), invoicingListId := none }

def reqC5w : Request :=
  { search := none, list_id := none, sector := none, job_number := none,
    include_invoicing := none, limit := some 1 }

def upC5w : Upstream := { primary := .ok [taskC5a, taskC5b], invoicing := .ok [] }

def envC5w : Envelope :=
  { items := [shapeItem taskC5b], total_returned := 1, active_count := 2,
    invoicing_count := 0, invoicing_included := false }

/-- Witness for C5 at a concrete input: two active tasks, limit 1. -/
theorem C5_limit_witness :
    (upC5w.primary = .ok [taskC5a, taskC5b]
     ∧ clickup_list_tasks cfgC5w reqC5w upC5w = .ok envC5w
     ∧ (0 : Nat) < 1 ∧ reqC5w.limit = some ((1 : Nat) : Int))
    ∧ envC5w.items.length ≤ 1 :=
  ⟨⟨by decide, by decide, by decide, by decide⟩,
   (C5_limit cfgC5w reqC5w upC5w envC5w [taskC5a, taskC5b]
       (by decide) (by decide)).2.1 1 (by decide) (by decide)⟩

/-! ### Claim C8: the merge -/

/-- C8: before truncation the returned items are the active pool followed by
the invoicing pool when the invoicing pool is included (the merge guard
holds), and the active pool alone otherwise; the response items are the
prefix of that merged pool of length total_returned. -/
theorem C8_merge (cfg : Config) (req : Request) (up : Upstream) (env : Envelope)
    (tasks : List Task)
    (hp : up.primary = .ok tasks)
    (hok : clickup_list_tasks cfg req up = .ok env) :
    (invGuard cfg req = true →
       env.items =
         ((activePool req tasks ++ invoicingPool cfg req up.invoicing).map shapeItem).take
           env.total_returned)
    ∧ (invGuard cfg req = false →
       env.items = ((activePool req tasks).map shapeItem).take env.total_returned) := by
  obtain ⟨tasks2, hp2, henv⟩ := listTasks_ok_inv hok
  rw [hp] at hp2
  cases hp2
  subst henv
  constructor
  · intro hg
    simp only [mkEnvelope]
    rw [combinedPool_of_guard_true hg]
    obtain ⟨k, hk⟩ :=
      jsSlice_eq_take (activePool req tasks ++ invoicingPool cfg req up.invoicing)
        (parsedLimit req)
    rw [hk, List.map_take]
    exact take_eq_take_own_length _ k
  · intro hg
    simp only [mkEnvelope]
    rw [combinedPool_of_guard_false hg]
    obtain ⟨k, hk⟩ := jsSlice_eq_take (activePool req tasks) (parsedLimit req)
    rw [hk, List.map_take]
    exact take_eq_take_own_length _ k

def taskC8w : Task :=
  { id := ("c8a"), name := some ("Desk"), url := none, status := none,
    list := some { id := ("l8"), name := ("SALES - Confirmed Orders") },
    text_content := none, custom_fields := [], date_created := some 10 }

def taskC8i : Task :=
  { id := ("c8i"), name := some ("Paid job"), url := none, status := none,
    list := some { id := ("inv1"), name := ("Invoicing") },
    text_content := none, custom_fields := [], date_created := some 3 }

def cfgC8w : Config :=
  { apiTokenSet := true, workspaceId := some ("ws"), invoicingListId := some ("inv1") }

def reqC8w : Request :=
  { search := none, list_id := none, sector := none, job_number := none,
    include_invoicing := some ("true"), limit := none }

def upC8w : Upstream := { primary := .ok [taskC8w], invoicing := .ok [taskC8i] }

def envC8w : Envelope :=
  { items := [shapeItem taskC8w, shapeItem taskC8i], total_returned := 2, active_count := 1,
    invoicing_count := 1, invoicing_included := true }

/-- Witness for C8 at a concrete input: active item precedes invoicing item. -/
theorem C8_merge_witness :
    (upC8w.primary = .ok [taskC8w]
     ∧ clickup_list_tasks cfgC8w reqC8w upC8w = .ok envC8w
     ∧ invGuard cfgC8w reqC8w = true)
    ∧ envC8w.items =
        ((activePool reqC8w [taskC8w] ++ invoicingPool cfgC8w reqC8w upC8w.invoicing).map
            shapeItem).take envC8w.total_returned :=
  ⟨⟨by decide, by decide, by decide⟩,
   (C8_merge cfgC8w reqC8w upC8w envC8w [taskC8w] (by decide) (by decide)).1 (by decide)⟩

/-! ### Claim C9: failure handling -/

theorem combinedPool_err (cfg : Config) (req : Request) (tasks : List Task)
    (s : Nat) (b : String) :
    combinedPool cfg req tasks (.err s b) = activePool req tasks := by
  unfold combinedPool
  split
  · rw [invoicingPool_err]
    exact List.append_nil _
  · rfl

/-- C9: a primary-fetch failure makes the operation return the upstream
status code and body as an error, with no result envelope; an
invoicing-fetch failure is swallowed — the invoicing pool is empty and the
request completes with a full result envelope. -/
theorem C9_failures (cfg : Config) (req : Request) (up : Upstream)
    (htok : cfg.apiTokenSet = true)
    (hws : qTruthy req.list_id = true ∨ qTruthy cfg.workspaceId = true) :
    (∀ s body, up.primary = .err s body →
       clickup_list_tasks cfg req up = .fail s ("ClickUp error") (some body))
    ∧ (∀ tasks s body, up.primary = .ok tasks → up.invoicing = .err s body →
       clickup_list_tasks cfg req up =
         .ok { items := (jsSlice (activePool req tasks) (parsedLimit req)).map shapeItem,
               total_returned :=
                 ((jsSlice (activePool req tasks) (parsedLimit req)).map shapeItem).length,
               active_count := (activePool req tasks).length,
               invoicing_count := 0,
               invoicing_included := includeInvoicing req }) := by
  constructor
  · intro s body hperr
    unfold clickup_list_tasks
    rw [hperr]
    have h1 : (!cfg.apiTokenSet) = false := by simp [htok]
    have h2 : (!qTruthy req.list_id && !qTruthy cfg.workspaceId) = false := by
      rcases hws with h | h <;> simp [h]
    simp [h1, h2]
  · intro tasks s body hpok hinv
    rw [listTasks_ok_eq htok hws hpok, hinv]
    congr 1
    simp only [mkEnvelope, combinedPool_err, invoicingPool_err, List.length_nil]

def cfgC9w : Config :=
  { apiTokenSet := true, workspaceId := some ("ws"), invoicingListId := some ("inv1") }

def reqC9w : Request :=
  { search := none, list_id := none, sector := none, job_number := none,
    include_invoicing := some ("true"), limit := none }

def upC9e : Upstream := { primary := .err 503 ("down"), invoicing := .ok [] }

def upC9i : Upstream := { primary := .ok [], invoicing := .err 500 ("oops") }

/-- Witness for C9 at concrete inputs: one request whose primary fetch fails
and one whose invoicing fetch fails. -/
theorem C9_failures_witness :
    (cfgC9w.apiTokenSet = true ∧ qTruthy cfgC9w.workspaceId = true)
    ∧ clickup_list_tasks cfgC9w reqC9w upC9e = .fail 503 ("ClickUp error") (some ("down"))
    ∧ clickup_list_tasks cfgC9w reqC9w upC9i =
        .ok { items := (jsSlice (activePool reqC9w []) (parsedLimit reqC9w)).map shapeItem,
              total_returned :=
                ((jsSlice (activePool reqC9w []) (parsedLimit reqC9w)).map shapeItem).length,
              active_count := (activePool reqC9w []).length,
              invoicing_count := 0,
              invoicing_included := includeInvoicing reqC9w } :=
  ⟨⟨by decide, by decide⟩,
   (C9_failures cfgC9w reqC9w upC9e (by decide) (Or.inr (by decide))).1 503 ("down") rfl,
   (C9_failures cfgC9w reqC9w upC9i (by decide) (Or.inr (by decide))).2 [] 500 ("oops") rfl rfl⟩

/-! ### Claim C10: the invoicing_included flag -/

theorem mkEnvelope_indep {cfg : Config} {req : Request}
    (hguard : invGuard cfg req = false) (tasks : List Task) (fr fr2 : FetchResult) :
    mkEnvelope cfg req tasks fr = mkEnvelope cfg req tasks fr2 := by
  unfold mkEnvelope
  rw [invoicingPool_of_guard_false hguard, invoicingPool_of_guard_false hguard,
      combinedPool_of_guard_false hguard, combinedPool_of_guard_false hguard]

/-- C10: the invoicing_included field equals whether the caller passed
include_invoicing as the literal string "true", independently of the
configuration and of the invoicing fetch outcome; with include_invoicing
= "true" but no invoicing list configured, the response still reports
invoicing_included = true with invoicing_count = 0, and the response does
not depend on the invoicing fetch result at all (no invoicing fetch is
consulted). -/
theorem C10_invoicing_flag (cfg : Config) (req : Request) (up : Upstream) :
    (∀ env, clickup_list_tasks cfg req up = .ok env →
       env.invoicing_included = (req.include_invoicing == some ("true")))
    ∧ (req.include_invoicing = some ("true") → cfg.invoicingListId = none →
        (∀ up2 : Upstream, up.primary = up2.primary →
           clickup_list_tasks cfg req up = clickup_list_tasks cfg req up2)
        ∧ (∀ env, clickup_list_tasks cfg req up = .ok env →
             env.invoicing_included = true ∧ env.invoicing_count = 0)) := by
  constructor
  · intro env hok
    obtain ⟨tasks, hp, henv⟩ := listTasks_ok_inv hok
    subst henv
    rfl
  · intro hinc hnil
    have hguard : invGuard cfg req = false := by simp [invGuard, qTruthy, hnil]
    constructor
    · intro up2 hpe
      unfold clickup_list_tasks
      rw [hpe]
      split
      · rfl
      · split
        · rfl
        · rcases hup2 : up2.primary with tasks | ⟨s, b⟩
          · exact congrArg Response.ok (mkEnvelope_indep hguard tasks up.invoicing up2.invoicing)
          · rfl
    · intro env hok
      obtain ⟨tasks, hp, henv⟩ := listTasks_ok_inv hok
      subst henv
      constructor
      · show includeInvoicing req = true
        simp [includeInvoicing, hinc]
      · show (invoicingPool cfg req up.invoicing).length = 0
        rw [invoicingPool_of_guard_false hguard]
        rfl

def cfgC10w : Config :=
  { apiTokenSet := true, workspaceId := some ("ws"), invoicingListId := none }

def reqC10w : Request :=
  { search := none, list_id := none, sector := none, job_number := none,
    include_invoicing := some ("true"), limit := none }

def upC10w : Upstream := { primary := .ok [], invoicing := .ok [taskC8i] }

def upC10w2 : Upstream := { primary := .ok [], invoicing := .err 500 ("x") }

def envC10w : Envelope :=
  { items := [], total_returned := 0, active_count := 0,
    invoicing_count := 0, invoicing_included := true }

/-- Witness for C10 at a concrete input: include_invoicing="true" with no
invoicing list configured. -/
theorem C10_invoicing_flag_witness :
    (reqC10w.include_invoicing = some ("true") ∧ cfgC10w.invoicingListId = none
     ∧ clickup_list_tasks cfgC10w reqC10w upC10w = .ok envC10w)
    ∧ clickup_list_tasks cfgC10w reqC10w upC10w = clickup_list_tasks cfgC10w reqC10w upC10w2
    ∧ (envC10w.invoicing_included = true ∧ envC10w.invoicing_count = 0) :=
  ⟨⟨rfl, rfl, by decide⟩,
   ((C10_invoicing_flag cfgC10w reqC10w upC10w).2 rfl rfl).1 upC10w2 rfl,
   ((C10_invoicing_flag cfgC10w reqC10w upC10w).2 rfl rfl).2 envC10w (by decide)⟩

end ClickupSpec
